import Mathlib

/-!
Verification of the SenseAI browser-extension analysis core.

Shallow embedding conventions:
- JavaScript numbers are modelled by exact rationals; integer-valued score
  arithmetic in the source stays integer-valued here, so rounding agrees with
  the source wherever the source computes exactly representable values.
- ISO-8601 timestamp strings are modelled by their epoch-millisecond values
  as integers; Date comparison and Date arithmetic in the source act on
  exactly these values, and ISO-8601 UTC strings compare lexicographically in
  the same order.
- JavaScript string operations are modelled on the underlying character
  lists, matching their behaviour on the ASCII data this code handles.
- Math.random results are modelled by an explicit stream of rationals that
  the simulation consumes in call order, one value per Math.random call.
-/

/-! ## JavaScript primitive models -/

/-- Models JS Math.round: round half toward positive infinity. -/
def jsRound (x : ℚ) : ℤ := ⌊x + 1/2⌋

/-- Models Math.min(100, Math.max(0, n)) on an integer value. -/
def clamp100 (n : ℤ) : ℤ := min 100 (max 0 n)

/-- True when pat occurs as a contiguous substring of s, models JS includes. -/
def containsSub (s pat : List Char) : Bool :=
  match s with
  | [] => pat.isEmpty
  | _ :: cs => pat.isPrefixOf s || containsSub cs pat

/-- Removes the first occurrence of pat from s; models JS replace(pat, "")
whose string form replaces only the first occurrence. -/
def dropPat (s pat : List Char) : List Char :=
  match s with
  | [] => []
  | c :: cs => if pat.isPrefixOf (c :: cs) then (c :: cs).drop pat.length else c :: dropPat cs pat

/-- Models JS String.prototype.includes. -/
def jsIncludes (s pat : String) : Bool := containsSub s.data pat.data

/-- Models JS String.prototype.endsWith. -/
def jsEndsWith (s suf : String) : Bool := suf.data.isSuffixOf s.data

/-- Models JS String.prototype.startsWith. -/
def jsStartsWith (s pre : String) : Bool := pre.data.isPrefixOf s.data

/-- Models JS String.prototype.toLowerCase on ASCII data. -/
def jsToLower (s : String) : String := ⟨s.data.map Char.toLower⟩

/-- Models JS String.prototype.replace(pat, "") (first occurrence only). -/
def jsStripOnce (s pat : String) : String := ⟨dropPat s.data pat.data⟩

/-- Models consuming one value from the Math.random stream; the stream is
total in the source, so an exhausted model stream yields 0. -/
def nextRand : List ℚ → ℚ × List ℚ
  | [] => (0, [])
  | r :: rs => (r, rs)

/-! ## Data model (src types module) -/

/-- CookieInfo from the shared types module. -/
structure CookieInfo where
  name : String
  domain : String
  secure : Bool
  httpOnly : Bool
  sameSite : Option String
  expirationDate : Option ℤ
deriving DecidableEq

/-- CookieSignal from the shared types module. -/
structure CookieSignal where
  count : ℕ
  thirdPartyCount : ℕ
  cookies : List CookieInfo
deriving DecidableEq

/-- TrackerSignal from the shared types module. -/
structure TrackerSignal where
  detected : List String
  blocked : ℕ
  scripts : List String
deriving DecidableEq

/-- The risk field of FingerprintSignal. -/
inductive Risk where
  | low
  | medium
  | high
deriving DecidableEq

/-- FingerprintSignal from the shared types module. -/
structure FingerprintSignal where
  techniques : List String
  risk : Risk
deriving DecidableEq

/-- HeaderSignal from the shared types module. -/
structure HeaderSignal where
  present : List String
  missing : List String
  issues : List String
deriving DecidableEq

/-- SSLSignal from the shared types module; expiresAt in epoch milliseconds. -/
structure SSLSignal where
  valid : Bool
  issuer : Option String
  expiresAt : Option ℤ
  protocol : Option String
deriving DecidableEq

/-- PageSignals from the shared types module; timestamp in epoch milliseconds. -/
structure PageSignals where
  url : String
  domain : String
  timestamp : ℤ
  cookies : CookieSignal
  trackers : TrackerSignal
  fingerprinting : FingerprintSignal
  headers : HeaderSignal
  ssl : SSLSignal
deriving DecidableEq

/-- SignalScores from the shared types module; the source stores the clamped
rounded integers produced by calculateSignalScores. -/
structure SignalScores where
  cookies : ℤ
  trackers : ℤ
  fingerprinting : ℤ
  headers : ℤ
  ssl : ℤ
deriving DecidableEq

/-- Verdict from the shared types module. -/
inductive Verdict where
  | safe
  | warning
  | danger
deriving DecidableEq

/-- The status field of ExplanationStatus. -/
inductive ExplState where
  | pending
  | generating
  | complete
  | failed
deriving DecidableEq

/-- ExplanationStatus from the shared types module. -/
structure ExplanationStatus where
  status : ExplState
  text : Option String
  generatedAt : Option ℤ
  error : Option String
deriving DecidableEq

/-- AnalysisResult from the shared types module; analyzedAt in epoch ms. -/
structure AnalysisResult where
  id : String
  url : String
  domain : String
  trustScore : ℤ
  verdict : Verdict
  signalScores : SignalScores
  signals : PageSignals
  analyzedAt : ℤ
  explanation : Option ExplanationStatus
deriving DecidableEq

/-! ## lib/utils -/

/-- getVerdictFromScore from src lib/utils. -/
def getVerdictFromScore (score : ℤ) : Verdict :=
  if score ≥ 70 then Verdict.safe
  else if score ≥ 40 then Verdict.warning
  else Verdict.danger

/-- The color-and-label pair returned by getScoreColor. -/
structure ScoreColor where
  color : String
  label : String
deriving DecidableEq

/-- getScoreColor from src lib/utils. -/
def getScoreColor (score : ℤ) : ScoreColor :=
  if score ≥ 70 then { color := "hsl(152, 76%, 40%)", label := "Safe" }
  else if score ≥ 40 then { color := "hsl(38, 92%, 50%)", label := "Caution" }
  else { color := "hsl(0, 84%, 60%)", label := "Risk" }

/-- Severity order of verdicts, used to express that the verdict is a
monotone step function of the score. -/
def verdictRank : Verdict → ℕ
  | Verdict.danger => 0
  | Verdict.warning => 1
  | Verdict.safe => 2

/-- getDomainFromUrl from src lib/utils: new URL(url).hostname, i.e. the
authority part after the scheme separator, with credentials, port, path,
query and fragment removed and the host lowercased; when no scheme separator
exists the URL constructor throws and the catch branch returns the input
unchanged. -/
def getDomainFromUrl (url : String) : String :=
  let rec afterScheme : List Char → Option (List Char)
    | [] => none
    | c :: rest =>
        if [':', '/', '/'].isPrefixOf (c :: rest) then some (rest.drop 2)
        else afterScheme rest
  match afterScheme url.data with
  | none => url
  | some rest =>
      let authority := rest.takeWhile (fun c => c ≠ '/' && c ≠ '?' && c ≠ '#')
      let afterCreds := (authority.reverse.takeWhile (fun c => c ≠ '@')).reverse
      let host := afterCreds.takeWhile (fun c => c ≠ ':')
      ⟨host.map Char.toLower⟩

/-! ## Simulation module (scoring engine) -/

/-- TRUSTED_DOMAINS from the simulation module. -/
def TRUSTED_DOMAINS : List String :=
  ["google.com", "www.google.com",
   "github.com", "www.github.com",
   "stackoverflow.com", "www.stackoverflow.com",
   "amazon.com", "www.amazon.com",
   "microsoft.com", "www.microsoft.com",
   "apple.com", "www.apple.com",
   "facebook.com", "www.facebook.com",
   "twitter.com", "www.twitter.com", "x.com",
   "linkedin.com", "www.linkedin.com",
   "youtube.com", "www.youtube.com",
   "netflix.com", "www.netflix.com",
   "reddit.com", "www.reddit.com",
   "wikipedia.org", "en.wikipedia.org",
   "medium.com", "www.medium.com",
   "vercel.app", "vercel.com",
   "netlify.app", "netlify.com",
   "cloudflare.com", "www.cloudflare.com"]

/-- SUSPICIOUS_PATTERNS from the simulation module. -/
def SUSPICIOUS_PATTERNS : List String :=
  ["free", "prize", "winner", "click", "urgent",
   "download", "crack", "keygen", "warez",
   "casino", "bet", "lottery",
   ".xyz", ".top", ".click", ".loan", ".work"]

/-- COMMON_TRACKERS from the simulation module. -/
def COMMON_TRACKERS : List String :=
  ["Google Analytics",
   "Facebook Pixel",
   "Google Tag Manager",
   "Hotjar",
   "Mixpanel",
   "Segment",
   "Amplitude",
   "Intercom"]

/-- The trustedCAs list inside the SSL branch of calculateSignalScores. -/
def trustedCAs : List String :=
  ["DigiCert", "Let\x27s Encrypt", "Comodo", "GlobalSign", "GeoTrust"]

/-- The requiredHeaders list inside calculateSignalScores. -/
def requiredHeaders : List String :=
  ["Content-Security-Policy", "X-Frame-Options", "X-Content-Type-Options",
   "Strict-Transport-Security"]

/-- The cookieScore accumulator of calculateSignalScores before the
reputation multiplier: base 85, minus round(thirdParty ratio times 30), plus
round(secure-and-httpOnly ratio times 15), guarded by count greater than 0. -/
def cookieScoreRaw (signals : PageSignals) : ℚ :=
  if signals.cookies.count > 0 then
    let thirdPartyFrac : ℚ := (signals.cookies.thirdPartyCount : ℚ) / (signals.cookies.count : ℚ)
    let secureCount : ℕ := (signals.cookies.cookies.filter (fun c => c.secure && c.httpOnly)).length
    let secureFrac : ℚ := (secureCount : ℚ) / (max signals.cookies.count 1 : ℚ)
    85 - (jsRound (thirdPartyFrac * 30) : ℚ) + (jsRound (secureFrac * 15) : ℚ)
  else 85

/-- The trackerScore accumulator of calculateSignalScores before the
reputation multiplier: base 90, minus 5 per detected tracker, floored at 40. -/
def trackerScoreRaw (signals : PageSignals) : ℚ :=
  max 40 (90 - (signals.trackers.detected.length : ℚ) * 5)

/-- The riskPenalty lookup inside calculateSignalScores. -/
def riskPenalty : Risk → ℚ
  | Risk.low => 0
  | Risk.medium => 20
  | Risk.high => 40

/-- The fingerprintScore accumulator of calculateSignalScores before the
reputation multiplier: base 95, minus the risk-tier penalty, minus 5 per
technique. -/
def fingerprintScoreRaw (signals : PageSignals) : ℚ :=
  95 - riskPenalty signals.fingerprinting.risk - (signals.fingerprinting.techniques.length : ℚ) * 5

/-- The headerScore accumulator of calculateSignalScores before the
reputation multiplier: base 80, plus 20 times the fraction of the four
required headers that are present, minus 5 per missing header, minus 10 per
recorded issue. -/
def headerScoreRaw (signals : PageSignals) : ℚ :=
  let presentRequired : ℕ :=
    (signals.headers.present.filter (fun h => requiredHeaders.contains h)).length
  80 + ((presentRequired : ℚ) / (requiredHeaders.length : ℚ)) * 20
    - (signals.headers.missing.length : ℚ) * 5 - (signals.headers.issues.length : ℚ) * 10

/-- The sslScore accumulator of calculateSignalScores: 100 when valid else
30, with the trusted-CA issuer branch re-assigning 100 when the certificate
is valid and the issuer name contains a trusted CA name. -/
def sslScoreRaw (signals : PageSignals) : ℚ :=
  let sslScore : ℚ := if signals.ssl.valid then 100 else 30
  match signals.ssl.issuer with
  | none => sslScore
  | some issuer =>
      if signals.ssl.valid && trustedCAs.any (fun ca => jsIncludes issuer ca) then 100
      else sslScore

/-- calculateSignalScores from the simulation module: applies the reputation
multiplier (trusted 1.2, suspicious 0.6, neutral 1.0) to the four non-SSL
accumulators, rounds, and clamps every category to the range 0 to 100; the
SSL score is rounded and clamped without a multiplier. -/
def calculateSignalScores (signals : PageSignals) (isTrusted isSuspicious : Bool) : SignalScores :=
  let baseMultiplier : ℚ := if isTrusted then 12/10 else if isSuspicious then 6/10 else 1
  { cookies := clamp100 (jsRound (cookieScoreRaw signals * baseMultiplier)),
    trackers := clamp100 (jsRound (trackerScoreRaw signals * baseMultiplier)),
    fingerprinting := clamp100 (jsRound (fingerprintScoreRaw signals * baseMultiplier)),
    headers := clamp100 (jsRound (headerScoreRaw signals * baseMultiplier)),
    ssl := clamp100 (jsRound (sslScoreRaw signals)) }

/-- The weighted-sum-and-round aggregate of simulateAnalysis: weights are
ssl 0.25, headers 0.20, cookies 0.20, trackers 0.20, fingerprinting 0.15. -/
def trustScoreOf (signalScores : SignalScores) : ℤ :=
  jsRound ((signalScores.ssl : ℚ) * (25/100) + (signalScores.headers : ℚ) * (20/100)
    + (signalScores.cookies : ℚ) * (20/100) + (signalScores.trackers : ℚ) * (20/100)
    + (signalScores.fingerprinting : ℚ) * (15/100))

/-- The isTrusted test of simulateAnalysis: exact match against
TRUSTED_DOMAINS or suffix match against a dot-prefixed entry with its
leading www. removed (the JS replace removes the first occurrence, which
coincides with all occurrences on these constants). -/
def isTrustedDomain (domain : String) : Bool :=
  TRUSTED_DOMAINS.any (fun td => domain == td || jsEndsWith domain ("." ++ jsStripOnce td "www."))

/-- The isSuspicious test of simulateAnalysis: any suspicious pattern occurs
in the lowercased domain or in the lowercased URL. -/
def isSuspiciousUrl (domain url : String) : Bool :=
  SUSPICIOUS_PATTERNS.any (fun pat => jsIncludes domain pat || jsIncludes (jsToLower url) pat)

/-- enhanceSignals tracker branch: when no trackers were detected, draw one
random value and backfill floor(r*3) trackers for trusted domains or
floor(r*5)+2 otherwise, taken from the front of COMMON_TRACKERS. -/
def enhanceTrackers (signals : PageSignals) (isTrusted : Bool) (rand : List ℚ) :
    TrackerSignal × List ℚ :=
  if signals.trackers.detected.length = 0 then
    let (r, rest) := nextRand rand
    let numTrackers : ℕ := if isTrusted then (⌊r * 3⌋).toNat else (⌊r * 5⌋).toNat + 2
    ({ detected := COMMON_TRACKERS.take numTrackers,
       blocked := signals.trackers.blocked,
       scripts := signals.trackers.scripts }, rest)
  else (signals.trackers, rand)

/-- enhanceSignals header branch: when neither present nor missing headers
were recorded, backfill a fixed header profile by reputation (no randomness). -/
def enhanceHeaders (signals : PageSignals) (isTrusted : Bool) : HeaderSignal :=
  if signals.headers.present.length = 0 ∧ signals.headers.missing.length = 0 then
    if isTrusted then
      { present := ["Content-Security-Policy", "X-Frame-Options", "X-Content-Type-Options",
                    "Strict-Transport-Security"],
        missing := ["Permissions-Policy"],
        issues := [] }
    else
      { present := ["X-Content-Type-Options"],
        missing := ["Content-Security-Policy", "X-Frame-Options", "Strict-Transport-Security",
                    "Permissions-Policy"],
        issues := ["Missing critical security headers"] }
  else signals.headers

/-- enhanceSignals fingerprinting branch: when no techniques were detected,
trusted domains get none, others get the first floor(r*2)+1 of Canvas and
WebGL (the random draw happens only in the non-trusted arm of the ternary);
the risk tier is recomputed from the technique count. -/
def enhanceFingerprinting (signals : PageSignals) (isTrusted : Bool) (rand : List ℚ) :
    FingerprintSignal × List ℚ :=
  if signals.fingerprinting.techniques.length = 0 then
    let (techniques, rest) :=
      if isTrusted then (([] : List String), rand)
      else
        let (r, rest) := nextRand rand
        (["Canvas", "WebGL"].take ((⌊r * 2⌋).toNat + 1), rest)
    ({ techniques := techniques,
       risk := if techniques.length = 0 then Risk.low
               else if techniques.length = 1 then Risk.medium
               else Risk.high }, rest)
  else (signals.fingerprinting, rand)

/-- enhanceSignals SSL branch: a valid certificate with no recorded issuer
gets a random issuer from a fixed list, an expiry 90 days out, and protocol
TLS 1.3. -/
def enhanceSsl (signals : PageSignals) (nowMs : ℤ) (rand : List ℚ) :
    SSLSignal × List ℚ :=
  if signals.ssl.valid && signals.ssl.issuer.isNone then
    let (r, rest) := nextRand rand
    let issuers : List String := ["Let\x27s Encrypt", "DigiCert Inc", "GlobalSign", "Comodo CA"]
    ({ valid := signals.ssl.valid,
       issuer := issuers.get? (⌊r * 4⌋).toNat,
       expiresAt := some (nowMs + 1000 * 60 * 60 * 24 * 90),
       protocol := some "TLS 1.3" }, rest)
  else (signals.ssl, rand)

/-- enhanceSignals from the simulation module: runs the four backfill
branches in source order, threading the Math.random stream through them. -/
def enhanceSignals (signals : PageSignals) (isTrusted : Bool) (nowMs : ℤ) (rand : List ℚ) :
    PageSignals × List ℚ :=
  let (trackersE, rand1) := enhanceTrackers signals isTrusted rand
  let headersE := enhanceHeaders signals isTrusted
  let (fpE, rand2) := enhanceFingerprinting signals isTrusted rand1
  let (sslE, rand3) := enhanceSsl signals nowMs rand2
  ({ signals with trackers := trackersE, headers := headersE,
                  fingerprinting := fpE, ssl := sslE }, rand3)

/-- simulateAnalysis from the simulation module. The generateId result and
the Date.now timestamp are environment inputs and appear as the resultId and
nowMs parameters; the Math.random stream consumed by enhanceSignals appears
as the rand parameter. -/
def simulateAnalysis (signals : PageSignals) (rand : List ℚ) (resultId : String)
    (nowMs : ℤ) : AnalysisResult :=
  let domain := jsToLower signals.domain
  let isTrusted := isTrustedDomain domain
  let isSuspicious := isSuspiciousUrl domain signals.url
  let enhancedSignals := (enhanceSignals signals isTrusted nowMs rand).1
  let signalScores := calculateSignalScores enhancedSignals isTrusted isSuspicious
  let trustScore := trustScoreOf signalScores
  { id := resultId,
    url := signals.url,
    domain := signals.domain,
    trustScore := trustScore,
    verdict := getVerdictFromScore trustScore,
    signalScores := signalScores,
    signals := enhancedSignals,
    analyzedAt := nowMs,
    explanation := some { status := ExplState.pending, text := none,
                          generatedAt := none, error := none } }

/-! ## Background service worker: result cache -/

/-- CachedAnalysis from the shared types module; times in epoch ms. -/
structure CachedAnalysis where
  result : AnalysisResult
  cachedAt : ℤ
  expiresAt : ℤ
deriving DecidableEq

/-- The cachedResults object in chrome.storage.local: a string-keyed map,
modelled as an association list in insertion order with at most one entry
per key maintained by setKey. -/
abbrev CacheStore := List (String × CachedAnalysis)

/-- Models assignment cached[domain] = v on a JS object: replaces the entry
at an existing key in place, otherwise appends at the end. -/
def setKey (store : CacheStore) (d : String) (v : CachedAnalysis) : CacheStore :=
  match store with
  | [] => [(d, v)]
  | (k, w) :: rest => if k = d then (d, v) :: rest else (k, w) :: setKey rest d v

/-- Models the lookup cached[domain] on a JS object. -/
def getKey (store : CacheStore) (d : String) : Option CachedAnalysis :=
  match store with
  | [] => none
  | (k, w) :: rest => if k = d then some w else getKey rest d

/-- Models delete cached[domain] on a JS object. -/
def eraseKey (store : CacheStore) (d : String) : CacheStore :=
  match store with
  | [] => []
  | (k, w) :: rest => if k = d then eraseKey rest d else (k, w) :: eraseKey rest d

/-- Number of entries stored under key d. -/
def countKey (store : CacheStore) (d : String) : ℕ :=
  match store with
  | [] => 0
  | (k, _) :: rest => (if k = d then 1 else 0) + countKey rest d

/-- getCachedResult from the background worker: returns the pair of the
response value and the cachedResults store after the call, since an expired
entry is deleted and the deletion written back to storage. -/
def getCachedResult (store : CacheStore) (domain : String) (nowMs : ℤ) :
    Option CachedAnalysis × CacheStore :=
  match getKey store domain with
  | none => (none, store)
  | some cachedItem =>
      if cachedItem.expiresAt < nowMs then (none, eraseKey store domain)
      else (some cachedItem, store)

/-- setCachedResult from the background worker: stores the result under its
domain with cachedAt now and expiresAt now plus the cache-expiration setting
in hours (3600000 ms per hour). -/
def setCachedResult (store : CacheStore) (domain : String) (result : AnalysisResult)
    (nowMs : ℤ) (expirationHours : ℕ) : CacheStore :=
  setKey store domain
    { result := result, cachedAt := nowMs,
      expiresAt := nowMs + (expirationHours : ℤ) * 3600000 }

/-! ## Background service worker: offline queue and status -/

/-- OfflineQueueItem from the shared types module; queuedAt in epoch ms. -/
structure OfflineQueueItem where
  id : String
  signals : PageSignals
  queuedAt : ℤ
  retryCount : ℕ
deriving DecidableEq

/-- ConnectionStatus from the shared types module. -/
inductive ConnectionStatus where
  | connected
  | disconnected
  | connecting
  | offline
deriving DecidableEq

/-- ExtensionStatus from the shared types module. -/
structure ExtensionStatus where
  isAuthenticated : Bool
  connectionStatus : ConnectionStatus
  pendingAnalyses : ℕ
  offlineQueueSize : ℕ
deriving DecidableEq

/-- The offlineQueue storage key together with the in-memory
extensionStatus object owned by the background worker. -/
structure BackgroundState where
  offlineQueue : List OfflineQueueItem
  status : ExtensionStatus
deriving DecidableEq

/-- addToOfflineQueue from the background worker: pushes a new item with a
fresh id, the current time, and retryCount 0 at the tail, persists the queue
and mirrors its length into extensionStatus via updateStatus. -/
def addToOfflineQueue (st : BackgroundState) (signals : PageSignals) (freshId : String)
    (nowMs : ℤ) : BackgroundState :=
  let queue := st.offlineQueue ++ [{ id := freshId, signals := signals,
                                     queuedAt := nowMs, retryCount := 0 }]
  { offlineQueue := queue,
    status := { st.status with offlineQueueSize := queue.length } }

/-- removeFromOfflineQueue from the background worker: filters out the item
with the given id, persists the filtered queue and mirrors its length into
extensionStatus via updateStatus. -/
def removeFromOfflineQueue (st : BackgroundState) (queueId : String) : BackgroundState :=
  let filtered := st.offlineQueue.filter (fun item => item.id ≠ queueId)
  { offlineQueue := filtered,
    status := { st.status with offlineQueueSize := filtered.length } }

/-! ## Background service worker: signal collection -/

/-- Models pendingSignalCollections.set(tabId, resolve): the key set of the
resolver map, with set on an existing key replacing its resolver. -/
def insertTab (pending : List ℕ) (tabId : ℕ) : List ℕ :=
  if pending.contains tabId then pending else pending ++ [tabId]

/-- Models pendingSignalCollections.delete(tabId). -/
def eraseTab (pending : List ℕ) (tabId : ℕ) : List ℕ :=
  pending.filter (fun t => t != tabId)

/-- The minimal fallback bundle synthesized by the 10-second timeout branch
of collectSignalsFromTab: ssl.valid from the URL scheme, everything else an
empty or low-risk default. -/
def fallbackSignals (url : String) (nowMs : ℤ) : PageSignals :=
  { url := url,
    domain := getDomainFromUrl url,
    timestamp := nowMs,
    cookies := { count := 0, thirdPartyCount := 0, cookies := [] },
    trackers := { detected := [], blocked := 0, scripts := [] },
    fingerprinting := { techniques := [], risk := Risk.low },
    headers := { present := [], missing := [], issues := [] },
    ssl := { valid := jsStartsWith url "https://", issuer := none,
             expiresAt := none, protocol := none } }

/-- The asynchronous event that settles the promise created by
collectSignalsFromTab: the content script responded in time, the 10-second
timer fired first, chrome.scripting.executeScript threw during injection, or
the retried sendMessage after injection rejected. -/
inductive CollectOutcome where
  | responded (sig : PageSignals)
  | timedOut
  | injectFailed
  | retrySendFailed
deriving DecidableEq

/-- collectSignalsFromTab from the background worker, as a function of the
settling event: it first registers the resolver for the tab, then
- on a content-script response, the SIGNALS_COLLECTED handler resolves with
  the collected bundle and deletes the resolver;
- on timeout, the timer deletes the resolver and resolves with the fallback
  bundle;
- on injection failure, the catch deletes the resolver and rejects;
- on a rejected retry send, the promise rejects with the resolver still in
  the map (the timer erases it later, after the promise has settled).
The returned pair is the settled promise value and the resolver-map keys at
the moment of settlement. -/
def collectSignalsFromTab (tabId : ℕ) (url : String) (nowMs : ℤ)
    (pending : List ℕ) (outcome : CollectOutcome) : Except Unit PageSignals × List ℕ :=
  let pending1 := insertTab pending tabId
  match outcome with
  | CollectOutcome.responded sig => (Except.ok sig, eraseTab pending1 tabId)
  | CollectOutcome.timedOut => (Except.ok (fallbackSignals url nowMs), eraseTab pending1 tabId)
  | CollectOutcome.injectFailed => (Except.error (), eraseTab pending1 tabId)
  | CollectOutcome.retrySendFailed => (Except.error (), pending1)

/-! ## Background service worker: waiter lifecycle per tab -/

/-- The lifecycle state of one tab's collection waiter: registered is the
membership of the tab id in pendingSignalCollections, resolverCalls counts
invocations of the stored resolve function. -/
structure TabWaiter where
  registered : Bool
  resolverCalls : ℕ
deriving DecidableEq

/-- The two events that can settle a waiter: the SIGNALS_COLLECTED message
handler, and the 10-second timeout callback. -/
inductive WaiterEvent where
  | signalsCollected
  | timeoutFired
deriving DecidableEq

/-- One event step on a tab's waiter. The SIGNALS_COLLECTED handler checks
pendingSignalCollections.has(tabId), and only then calls the resolver and
deletes the entry; the timeout callback performs the same guarded
delete-and-resolve. Without a registered resolver both are no-ops. -/
def waiterStep (w : TabWaiter) : WaiterEvent → TabWaiter
  | WaiterEvent.signalsCollected =>
      if w.registered then { registered := false, resolverCalls := w.resolverCalls + 1 } else w
  | WaiterEvent.timeoutFired =>
      if w.registered then { registered := false, resolverCalls := w.resolverCalls + 1 } else w

/-- Folds a sequence of events over a waiter state. -/
def waiterRun (w : TabWaiter) (es : List WaiterEvent) : TabWaiter :=
  es.foldl waiterStep w

/-! ## Helper lemmas -/

theorem clamp100_range (n : ℤ) : 0 ≤ clamp100 n ∧ clamp100 n ≤ 100 := by
  unfold clamp100
  omega

theorem jsRound_range {x : ℚ} (h0 : 0 ≤ x) (h1 : x ≤ 100) :
    0 ≤ jsRound x ∧ jsRound x ≤ 100 := by
  unfold jsRound
  constructor
  · exact Int.floor_nonneg.mpr (by linarith)
  · have h : ⌊x + 1/2⌋ < (101 : ℤ) := Int.floor_lt.mpr (by push_cast; linarith)
    omega

theorem jsRound_intCast (n : ℤ) : jsRound ((n : ℚ)) = n := by
  unfold jsRound
  rw [Int.floor_eq_iff]
  constructor <;> linarith

theorem trustScoreOf_range (sc : SignalScores)
    (hc : 0 ≤ sc.cookies ∧ sc.cookies ≤ 100)
    (ht : 0 ≤ sc.trackers ∧ sc.trackers ≤ 100)
    (hf : 0 ≤ sc.fingerprinting ∧ sc.fingerprinting ≤ 100)
    (hh : 0 ≤ sc.headers ∧ sc.headers ≤ 100)
    (hs : 0 ≤ sc.ssl ∧ sc.ssl ≤ 100) :
    0 ≤ trustScoreOf sc ∧ trustScoreOf sc ≤ 100 := by
  have kc1 : (0:ℚ) ≤ (sc.cookies : ℚ) := by exact_mod_cast hc.1
  have kc2 : (sc.cookies : ℚ) ≤ 100 := by exact_mod_cast hc.2
  have kt1 : (0:ℚ) ≤ (sc.trackers : ℚ) := by exact_mod_cast ht.1
  have kt2 : (sc.trackers : ℚ) ≤ 100 := by exact_mod_cast ht.2
  have kf1 : (0:ℚ) ≤ (sc.fingerprinting : ℚ) := by exact_mod_cast hf.1
  have kf2 : (sc.fingerprinting : ℚ) ≤ 100 := by exact_mod_cast hf.2
  have kh1 : (0:ℚ) ≤ (sc.headers : ℚ) := by exact_mod_cast hh.1
  have kh2 : (sc.headers : ℚ) ≤ 100 := by exact_mod_cast hh.2
  have ks1 : (0:ℚ) ≤ (sc.ssl : ℚ) := by exact_mod_cast hs.1
  have ks2 : (sc.ssl : ℚ) ≤ 100 := by exact_mod_cast hs.2
  exact jsRound_range (by linarith) (by linarith)

/-! ## Claim theorems: scoring engine -/

/-- C1: for every PageSignals bundle and every reputation classification,
each of the five category scores produced by calculateSignalScores and the
aggregate weighted-sum-and-round trustScore of simulateAnalysis are integers
in the range 0 to 100. -/
theorem signalScores_and_trustScore_in_range (signals : PageSignals)
    (isTrusted isSuspicious : Bool) :
    (0 ≤ (calculateSignalScores signals isTrusted isSuspicious).cookies ∧
      (calculateSignalScores signals isTrusted isSuspicious).cookies ≤ 100) ∧
    (0 ≤ (calculateSignalScores signals isTrusted isSuspicious).trackers ∧
      (calculateSignalScores signals isTrusted isSuspicious).trackers ≤ 100) ∧
    (0 ≤ (calculateSignalScores signals isTrusted isSuspicious).fingerprinting ∧
      (calculateSignalScores signals isTrusted isSuspicious).fingerprinting ≤ 100) ∧
    (0 ≤ (calculateSignalScores signals isTrusted isSuspicious).headers ∧
      (calculateSignalScores signals isTrusted isSuspicious).headers ≤ 100) ∧
    (0 ≤ (calculateSignalScores signals isTrusted isSuspicious).ssl ∧
      (calculateSignalScores signals isTrusted isSuspicious).ssl ≤ 100) ∧
    (0 ≤ trustScoreOf (calculateSignalScores signals isTrusted isSuspicious) ∧
      trustScoreOf (calculateSignalScores signals isTrusted isSuspicious) ≤ 100) := by
  refine ⟨clamp100_range _, clamp100_range _, clamp100_range _, clamp100_range _,
    clamp100_range _, ?_⟩
  exact trustScoreOf_range _ (clamp100_range _) (clamp100_range _) (clamp100_range _)
    (clamp100_range _) (clamp100_range _)

/-- C2: getVerdictFromScore is a pure monotone step function of the score:
safe exactly when the score is at least 70, warning exactly when it is at
least 40 and below 70, danger exactly below 40, and a higher score never
gets a lower-ranked verdict. -/
theorem getVerdictFromScore_step (score : ℤ) :
    (getVerdictFromScore score = Verdict.safe ↔ 70 ≤ score) ∧
    (getVerdictFromScore score = Verdict.warning ↔ 40 ≤ score ∧ score < 70) ∧
    (getVerdictFromScore score = Verdict.danger ↔ score < 40) ∧
    (∀ higher : ℤ, score ≤ higher →
      verdictRank (getVerdictFromScore score) ≤ verdictRank (getVerdictFromScore higher)) := by
  refine ⟨?_, ?_, ?_, ?_⟩
  · unfold getVerdictFromScore
    split_ifs <;> simp <;> omega
  · unfold getVerdictFromScore
    split_ifs <;> simp <;> omega
  · unfold getVerdictFromScore
    split_ifs <;> simp <;> omega
  · intro higher hle
    unfold getVerdictFromScore
    split_ifs <;> simp [verdictRank] <;> omega

/-- Witness for C2: monotonicity applied at the boundary scores 39 and 70. -/
theorem getVerdictFromScore_step_witness :
    verdictRank (getVerdictFromScore 39) ≤ verdictRank (getVerdictFromScore 70) :=
  (getVerdictFromScore_step 39).2.2.2 70 (by decide)

/-- C9: the ssl category score is 100 exactly when the certificate is valid
(the trusted-CA issuer branch re-assigns the same value 100, and no
reputation multiplier touches the ssl score) and 30 when it is invalid,
for every reputation classification. -/
theorem calculateSignalScores_ssl (signals : PageSignals) (isTrusted isSuspicious : Bool) :
    (calculateSignalScores signals isTrusted isSuspicious).ssl =
      if signals.ssl.valid then 100 else 30 := by
  have h : sslScoreRaw signals = if signals.ssl.valid then (100:ℚ) else 30 := by
    unfold sslScoreRaw
    cases hi : signals.ssl.issuer <;> cases hv : signals.ssl.valid <;> simp [hv]
  show clamp100 (jsRound (sslScoreRaw signals)) = _
  rw [h]
  cases hv : signals.ssl.valid
  · norm_num
    rw [show (30:ℚ) = ((30:ℤ):ℚ) by norm_num, jsRound_intCast]
    unfold clamp100
    omega
  · norm_num
    rw [show (100:ℚ) = ((100:ℤ):ℚ) by norm_num, jsRound_intCast]
    unfold clamp100
    omega

/-- C10: the UI color classifier getScoreColor agrees with
getVerdictFromScore: the Safe, Caution and Risk labels correspond exactly to
the safe, warning and danger verdicts at the shared 70 and 40 thresholds. -/
theorem getScoreColor_label_matches_verdict (score : ℤ) :
    ((getScoreColor score).label = "Safe" ↔ getVerdictFromScore score = Verdict.safe) ∧
    ((getScoreColor score).label = "Caution" ↔ getVerdictFromScore score = Verdict.warning) ∧
    ((getScoreColor score).label = "Risk" ↔ getVerdictFromScore score = Verdict.danger) := by
  unfold getScoreColor getVerdictFromScore
  split_ifs <;> decide

/-! ## Claim C3: determinism of the scoring path -/

/-- A bundle with empty trackers, headers and fingerprinting data: on such
input enhanceSignals consumes random draws before scoring. -/
def exBundle : PageSignals :=
  { url := "http://example.com/", domain := "example.com", timestamp := 0,
    cookies := { count := 0, thirdPartyCount := 0, cookies := [] },
    trackers := { detected := [], blocked := 0, scripts := [] },
    fingerprinting := { techniques := [], risk := Risk.low },
    headers := { present := [], missing := [], issues := [] },
    ssl := { valid := false, issuer := none, expiresAt := none, protocol := none } }

/-- A bundle on which no enhanceSignals backfill branch triggers. -/
def exRichBundle : PageSignals :=
  { url := "https://shop.example.org/", domain := "shop.example.org", timestamp := 0,
    cookies := { count := 2, thirdPartyCount := 1, cookies := [] },
    trackers := { detected := ["Google Analytics"], blocked := 0, scripts := [] },
    fingerprinting := { techniques := ["Canvas"], risk := Risk.medium },
    headers := { present := ["X-Frame-Options"], missing := ["Content-Security-Policy"],
                 issues := [] },
    ssl := { valid := true, issuer := some "DigiCert Inc", expiresAt := none,
             protocol := none } }

unseal Rat.mul Rat.add Rat.inv Rat.sub in
/-- C3 counterexample: simulateAnalysis is not deterministic on equal input
bundles, because enhanceSignals draws from Math.random inside the scoring
path; two runs on the same bundle with different random draws give
different SignalScores and trustScore (the tracker backfill count differs,
so the tracker score and the aggregate differ). -/
theorem simulateAnalysis_randomness_counterexample :
    ¬ ((simulateAnalysis exBundle [0] "a" 0).signalScores =
         (simulateAnalysis exBundle [9/10] "a" 0).signalScores ∧
       (simulateAnalysis exBundle [0] "a" 0).trustScore =
         (simulateAnalysis exBundle [9/10] "a" 0).trustScore ∧
       (simulateAnalysis exBundle [0] "a" 0).verdict =
         (simulateAnalysis exBundle [9/10] "a" 0).verdict) := by
  decide

/-- C3 amended: on bundles where no backfill branch of enhanceSignals
triggers (trackers detected, headers recorded, fingerprinting techniques
recorded, and no valid certificate missing its issuer), simulateAnalysis is
deterministic: the SignalScores, trustScore and verdict do not depend on
the random stream, the generated id, or the current time. -/
theorem simulateAnalysis_deterministic_without_backfill (signals : PageSignals)
    (rand1 rand2 : List ℚ) (id1 id2 : String) (now1 now2 : ℤ)
    (htr : signals.trackers.detected ≠ [])
    (hhd : ¬(signals.headers.present = [] ∧ signals.headers.missing = []))
    (hfp : signals.fingerprinting.techniques ≠ [])
    (hssl : (signals.ssl.valid && signals.ssl.issuer.isNone) = false) :
    (simulateAnalysis signals rand1 id1 now1).signalScores =
      (simulateAnalysis signals rand2 id2 now2).signalScores ∧
    (simulateAnalysis signals rand1 id1 now1).trustScore =
      (simulateAnalysis signals rand2 id2 now2).trustScore ∧
    (simulateAnalysis signals rand1 id1 now1).verdict =
      (simulateAnalysis signals rand2 id2 now2).verdict := by
  have h1 : ∀ (t : Bool) (rs : List ℚ), enhanceTrackers signals t rs = (signals.trackers, rs) := by
    intro t rs
    have hc : ¬(signals.trackers.detected.length = 0) := by
      simpa [List.length_eq_zero] using htr
    unfold enhanceTrackers
    exact if_neg hc
  have h2 : ∀ (t : Bool), enhanceHeaders signals t = signals.headers := by
    intro t
    have hc : ¬(signals.headers.present.length = 0 ∧ signals.headers.missing.length = 0) := by
      simpa [List.length_eq_zero] using hhd
    unfold enhanceHeaders
    exact if_neg hc
  have h3 : ∀ (t : Bool) (rs : List ℚ),
      enhanceFingerprinting signals t rs = (signals.fingerprinting, rs) := by
    intro t rs
    have hc : ¬(signals.fingerprinting.techniques.length = 0) := by
      simpa [List.length_eq_zero] using hfp
    unfold enhanceFingerprinting
    exact if_neg hc
  have h4 : ∀ (n : ℤ) (rs : List ℚ), enhanceSsl signals n rs = (signals.ssl, rs) := by
    intro n rs
    unfold enhanceSsl
    exact if_neg (by simp [hssl])
  have henh : ∀ (t : Bool) (n : ℤ) (rs : List ℚ),
      enhanceSignals signals t n rs = (signals, rs) := by
    intro t n rs
    simp [enhanceSignals, h1, h2, h3, h4]
  simp [simulateAnalysis, henh]

/-- Witness for the amended C3 on a backfill-free bundle with two different
random streams, ids and times. -/
theorem simulateAnalysis_deterministic_witness :
    (simulateAnalysis exRichBundle [0] "a" 0).signalScores =
      (simulateAnalysis exRichBundle [9/10] "b" 5).signalScores :=
  (simulateAnalysis_deterministic_without_backfill exRichBundle [0] [9/10] "a" "b" 0 5
    (by decide) (by decide) (by decide) (by decide)).1

/-! ## Claim theorems: result cache -/

theorem getKey_setKey (store : CacheStore) (d : String) (v : CachedAnalysis) :
    getKey (setKey store d v) d = some v := by
  induction store with
  | nil => simp [setKey, getKey]
  | cons hd tl ih =>
      obtain ⟨k, w⟩ := hd
      by_cases hk : k = d
      · simp [setKey, getKey, hk]
      · simp [setKey, getKey, hk, ih]

theorem countKey_setKey (store : CacheStore) (d : String) (v : CachedAnalysis) :
    countKey (setKey store d v) d = max (countKey store d) 1 := by
  induction store with
  | nil => simp [setKey, countKey]
  | cons hd tl ih =>
      obtain ⟨k, w⟩ := hd
      by_cases hk : k = d
      · simp [setKey, countKey, hk]
      · simp [setKey, countKey, hk, ih]

theorem getKey_eraseKey (store : CacheStore) (d : String) :
    getKey (eraseKey store d) d = none := by
  induction store with
  | nil => rfl
  | cons hd tl ih =>
      obtain ⟨k, w⟩ := hd
      by_cases hk : k = d
      · simp [eraseKey, hk, ih]
      · simp [eraseKey, getKey, hk, ih]

/-- C4: cache round-trip with overwrite. After setCachedResult under a
cache-expiration of ttl hours, an immediate getCachedResult returns the
stored entry, whose result is the stored result and whose expiresAt minus
cachedAt is exactly ttl hours; and two sequential setCachedResult calls for
the same domain leave exactly one live entry, the later one. The store is
assumed to hold at most one entry per key, which JS objects guarantee. -/
theorem cache_roundtrip_and_overwrite (store : CacheStore) (d : String)
    (r1 r2 : AnalysisResult) (now1 now2 : ℤ) (ttl : ℕ)
    (hwf : countKey store d ≤ 1) :
    (getCachedResult (setCachedResult store d r1 now1 ttl) d now1).1 =
      some { result := r1, cachedAt := now1, expiresAt := now1 + (ttl : ℤ) * 3600000 } ∧
    countKey (setCachedResult (setCachedResult store d r1 now1 ttl) d r2 now2 ttl) d = 1 ∧
    getKey (setCachedResult (setCachedResult store d r1 now1 ttl) d r2 now2 ttl) d =
      some { result := r2, cachedAt := now2, expiresAt := now2 + (ttl : ℤ) * 3600000 } := by
  refine ⟨?_, ?_, ?_⟩
  · unfold getCachedResult setCachedResult
    rw [getKey_setKey]
    have hle : ¬(now1 + (ttl : ℤ) * 3600000 < now1) := by omega
    simp [hle]
  · unfold setCachedResult
    rw [countKey_setKey, countKey_setKey]
    omega
  · unfold setCachedResult
    rw [getKey_setKey]

/-- C5: expiry eviction is persisted. When the cached entry for a domain
has expired, getCachedResult returns none and writes the store back without
that entry, and a second getCachedResult on the written-back store also
returns none while leaving the store untouched. -/
theorem cache_expiry_evicts_persistently (store : CacheStore) (d : String)
    (item : CachedAnalysis) (now : ℤ)
    (hfound : getKey store d = some item) (hexp : item.expiresAt < now) :
    (getCachedResult store d now).1 = none ∧
    getKey (getCachedResult store d now).2 d = none ∧
    getCachedResult (getCachedResult store d now).2 d now =
      (none, (getCachedResult store d now).2) := by
  have hget : getCachedResult store d now = (none, eraseKey store d) := by
    unfold getCachedResult
    rw [hfound]
    simp [hexp]
  refine ⟨by rw [hget], ?_, ?_⟩
  · rw [hget]
    exact getKey_eraseKey store d
  · rw [hget]
    unfold getCachedResult
    rw [getKey_eraseKey]

/-- A concrete analysis result for the cache witnesses. -/
def exResult : AnalysisResult :=
  { id := "r1", url := "https://example.com/", domain := "example.com",
    trustScore := 55, verdict := Verdict.warning,
    signalScores := { cookies := 85, trackers := 60, fingerprinting := 70,
                      headers := 55, ssl := 30 },
    signals := exBundle, analyzedAt := 0, explanation := none }

/-- A store holding one already-expired entry for example.com. -/
def exStore : CacheStore :=
  [("example.com", { result := exResult, cachedAt := 0, expiresAt := 10 })]

/-- Witness for C4 on the empty store with a 24-hour expiration setting. -/
theorem cache_roundtrip_and_overwrite_witness :
    (getCachedResult (setCachedResult [] "example.com" exResult 1000 24) "example.com" 1000).1 =
      some { result := exResult, cachedAt := 1000, expiresAt := 1000 + (24 : ℤ) * 3600000 } :=
  (cache_roundtrip_and_overwrite [] "example.com" exResult exResult 1000 2000 24 (by decide)).1

/-- Witness for C5 on a store whose entry expired at time 10, read at 11. -/
theorem cache_expiry_evicts_witness :
    (getCachedResult exStore "example.com" 11).1 = none :=
  (cache_expiry_evicts_persistently exStore "example.com"
    { result := exResult, cachedAt := 0, expiresAt := 10 } 11 (by rfl) (by decide)).1

/-! ## Claim theorems: offline queue -/

/-- C8: addToOfflineQueue appends the new item, with retryCount 0 and the
fresh id, at the tail; when the queue was ordered by queuedAt and the new
timestamp is current, the stored sequence stays ordered by queuedAt; and
after an enqueue or a dequeue the mirrored ExtensionStatus.offlineQueueSize
equals the length of the persisted queue. -/
theorem offlineQueue_fifo_and_size_mirror (st : BackgroundState) (signals : PageSignals)
    (freshId : String) (nowMs : ℤ) (removeId : String)
    (hsorted : st.offlineQueue.Pairwise (fun a b => a.queuedAt ≤ b.queuedAt))
    (hle : ∀ item ∈ st.offlineQueue, item.queuedAt ≤ nowMs) :
    (addToOfflineQueue st signals freshId nowMs).offlineQueue =
      st.offlineQueue ++
        [{ id := freshId, signals := signals, queuedAt := nowMs, retryCount := 0 }] ∧
    ((addToOfflineQueue st signals freshId nowMs).offlineQueue).Pairwise
      (fun a b => a.queuedAt ≤ b.queuedAt) ∧
    (addToOfflineQueue st signals freshId nowMs).status.offlineQueueSize =
      (addToOfflineQueue st signals freshId nowMs).offlineQueue.length ∧
    (removeFromOfflineQueue st removeId).status.offlineQueueSize =
      (removeFromOfflineQueue st removeId).offlineQueue.length := by
  refine ⟨rfl, ?_, rfl, rfl⟩
  have hq : (addToOfflineQueue st signals freshId nowMs).offlineQueue =
      st.offlineQueue ++
        [{ id := freshId, signals := signals, queuedAt := nowMs, retryCount := 0 }] := rfl
  rw [hq, List.pairwise_append]
  refine ⟨hsorted, by simp, ?_⟩
  intro a ha b hb
  simp only [List.mem_singleton] at hb
  rw [hb]
  exact hle a ha

/-- A background state with one queued item, size mirror in sync. -/
def exQueueState : BackgroundState :=
  { offlineQueue := [{ id := "q0", signals := exBundle, queuedAt := 1, retryCount := 0 }],
    status := { isAuthenticated := false, connectionStatus := ConnectionStatus.offline,
                pendingAnalyses := 0, offlineQueueSize := 1 } }

/-- Witness for C8 enqueuing onto a one-element queue at a later time. -/
theorem offlineQueue_fifo_witness :
    (addToOfflineQueue exQueueState exBundle "q1" 5).status.offlineQueueSize =
      (addToOfflineQueue exQueueState exBundle "q1" 5).offlineQueue.length :=
  (offlineQueue_fifo_and_size_mirror exQueueState exBundle "q1" 5 "q0"
    (by decide) (by decide)).2.2.1

/-! ## Claim theorems: signal collection -/

theorem contains_eraseTab (pending : List ℕ) (tabId : ℕ) :
    List.contains (eraseTab pending tabId) tabId = false := by
  unfold eraseTab
  induction pending with
  | nil => rfl
  | cons hd tl ih =>
      rw [List.filter_cons]
      by_cases h : hd = tabId
      · rw [if_neg (by simp [h])]
        exact ih
      · rw [if_pos (by simp [h]), List.contains_cons]
        simp [ih, Ne.symm h]

/-- C6 amended: only the timeout path recovers with the fallback. When the
10-second wait elapses with the waiter still pending, collectSignalsFromTab
removes the pending resolver and resolves with the minimal TLS-only
fallback bundle whose ssl.valid is derived from the URL scheme and whose
other categories are empty or low-risk defaults. -/
theorem collect_timeout_fallback (tabId : ℕ) (url : String) (nowMs : ℤ) (pending : List ℕ) :
    (collectSignalsFromTab tabId url nowMs pending CollectOutcome.timedOut).1 =
      Except.ok (fallbackSignals url nowMs) ∧
    ((collectSignalsFromTab tabId url nowMs pending CollectOutcome.timedOut).2).contains tabId =
      false ∧
    (fallbackSignals url nowMs).ssl.valid = jsStartsWith url "https://" ∧
    (fallbackSignals url nowMs).cookies = { count := 0, thirdPartyCount := 0, cookies := [] } ∧
    (fallbackSignals url nowMs).trackers.detected = [] ∧
    (fallbackSignals url nowMs).headers = { present := [], missing := [], issues := [] } ∧
    (fallbackSignals url nowMs).fingerprinting = { techniques := [], risk := Risk.low } :=
  ⟨rfl, contains_eraseTab _ _, rfl, rfl, rfl, rfl, rfl⟩

/-- Witness for the amended C6 at a concrete tab, URL and resolver map. -/
theorem collect_timeout_fallback_witness :
    (collectSignalsFromTab 7 "http://demo.test/" 3 [7, 9] CollectOutcome.timedOut).1 =
      Except.ok (fallbackSignals "http://demo.test/" 3) :=
  (collect_timeout_fallback 7 "http://demo.test/" 3 [7, 9]).1

/-- C6 counterexample: a content-script injection failure does not resolve
with the fallback bundle; the promise is rejected, and the rejection is
surfaced to the requester by the message handler as an error response. -/
theorem collect_injection_failure_counterexample :
    (collectSignalsFromTab 1 "https://example.com/" 0 [] CollectOutcome.injectFailed).1 =
      Except.error () ∧
    (collectSignalsFromTab 1 "https://example.com/" 0 [] CollectOutcome.injectFailed).1 ≠
      Except.ok (fallbackSignals "https://example.com/" 0) := by
  refine ⟨rfl, ?_⟩
  intro h
  exact Except.noConfusion h

/-! ## Claim theorems: waiter lifecycle -/

theorem waiterRun_unregistered (w : TabWaiter) (es : List WaiterEvent)
    (hw : w.registered = false) : waiterRun w es = w := by
  induction es generalizing w with
  | nil => rfl
  | cons e rest ih =>
      have hstep : waiterStep w e = w := by
        cases e <;> simp [waiterStep, hw]
      show waiterRun (waiterStep w e) rest = w
      rw [hstep]
      exact ih w hw

/-- C7: a pending waiter is resolved exactly once and never left dangling.
Events on a tab with no registered resolver change no state; a
SIGNALS_COLLECTED event on a registered waiter invokes the resolver once
and removes it; and any nonempty sequence of SIGNALS_COLLECTED and timeout
events on a freshly registered waiter ends with the resolver removed and
exactly one resolver invocation, however the events interleave. -/
theorem waiter_resolved_exactly_once (es : List WaiterEvent) (w : TabWaiter)
    (hne : es ≠ []) (hw : w.registered = false) :
    (∀ e, waiterStep w e = w) ∧
    (∀ c : ℕ, waiterStep { registered := true, resolverCalls := c } WaiterEvent.signalsCollected =
      { registered := false, resolverCalls := c + 1 }) ∧
    waiterRun { registered := true, resolverCalls := 0 } es =
      { registered := false, resolverCalls := 1 } := by
  refine ⟨?_, ?_, ?_⟩
  · intro e
    cases e <;> simp [waiterStep, hw]
  · intro c
    simp [waiterStep]
  · cases es with
    | nil => exact absurd rfl hne
    | cons e rest =>
        have hstep : waiterStep { registered := true, resolverCalls := 0 } e =
            { registered := false, resolverCalls := 1 } := by
          cases e <;> simp [waiterStep]
        show waiterRun (waiterStep { registered := true, resolverCalls := 0 } e) rest = _
        rw [hstep]
        exact waiterRun_unregistered _ rest rfl

/-- Witness for C7 on a timeout followed by a late duplicate message. -/
theorem waiter_resolved_exactly_once_witness :
    waiterRun { registered := true, resolverCalls := 0 }
      [WaiterEvent.timeoutFired, WaiterEvent.signalsCollected] =
      { registered := false, resolverCalls := 1 } :=
  (waiter_resolved_exactly_once [WaiterEvent.timeoutFired, WaiterEvent.signalsCollected]
    { registered := false, resolverCalls := 3 } (by decide) (by rfl)).2.2
